import Mathlib

/-!
Shallow embedding of the identity-resolution core of `dtxstudio-patient-info`
(package `dtxstudio_patient_info`, modules `utils/normalizers.py`,
`utils/date_similarity.py`, `utils/italian_cf.py`, `utils/key_builders.py`,
`core/confidence_scoring.py`, `core/data_models.py`, `core/patient_matcher.py`,
`core/clinical_service.py`).

Python strings are Lean `String` (a list of unicode characters); Python
`dict`s of strings are association lists with first-occurrence lookup;
`None`-able results are `Option`; code that can raise is embedded in
`Except PyErr`.

Python floats are modelled as exact decimals on the grid `ℤ/400` (`Flt`
below): every float constant in the source is a multiple of `1/100` (the
confidence table and correction deltas) or of `1/20` (the date-similarity
position weights), the executed paths only add these constants, halve a
weight (`weight * 0.5`, still on the grid), and divide by the total weight
`1.0` (exact), so the whole computation stays on the grid and IEEE rounding
is unobservable at the comparison margins the code uses.
-/

namespace DtxPatientInfo

/-- An exact decimal: the rational `n / 400`. -/
structure Flt where
  n : ℤ
  deriving DecidableEq, Repr

/-- The decimal `h / 100` as a grid point (e.g. `pct 85` is the float
literal `0.85`, `pct (-5)` is `-0.05`). -/
def pct (h : ℤ) : Flt := ⟨4 * h⟩

instance : Add Flt := ⟨fun a b => ⟨a.n + b.n⟩⟩

instance : LE Flt := ⟨fun a b => a.n ≤ b.n⟩

instance : LT Flt := ⟨fun a b => a.n < b.n⟩

instance (a b : Flt) : Decidable (a ≤ b) := inferInstanceAs (Decidable (a.n ≤ b.n))

instance (a b : Flt) : Decidable (a < b) := inferInstanceAs (Decidable (a.n < b.n))

/-- Python `a * b` on the grid (exact for the operands the code multiplies). -/
def Flt.mul (a b : Flt) : Flt := ⟨a.n * b.n / 400⟩

/-- Python `a / b` on the grid (exact for the operands the code divides). -/
def Flt.div (a b : Flt) : Flt := ⟨a.n * 400 / b.n⟩

/-- Python `min(a, b)`. -/
def Flt.min (a b : Flt) : Flt := if a.n ≤ b.n then a else b

/-- Python `max(a, b)`. -/
def Flt.max (a b : Flt) : Flt := if b.n ≤ a.n then a else b

/-- Sum of a list of grid decimals. -/
def Flt.sum (l : List Flt) : Flt := l.foldr (fun a b => a + b) (pct 0)

/-- The Unicode simple case map, restricted to the Basic Latin and Latin-1
letters that occur in this code base's data (uppercase paired with its
lowercase); Python's `str.lower`/`str.upper` act as the identity on every
other character exercised by the spec's examples. -/
def caseTable : List (Char × Char) :=
  [('A', 'a'), ('B', 'b'), ('C', 'c'), ('D', 'd'), ('E', 'e'), ('F', 'f'),
   ('G', 'g'), ('H', 'h'), ('I', 'i'), ('J', 'j'), ('K', 'k'), ('L', 'l'),
   ('M', 'm'), ('N', 'n'), ('O', 'o'), ('P', 'p'), ('Q', 'q'), ('R', 'r'),
   ('S', 's'), ('T', 't'), ('U', 'u'), ('V', 'v'), ('W', 'w'), ('X', 'x'),
   ('Y', 'y'), ('Z', 'z'),
   ('À', 'à'), ('Á', 'á'), ('Â', 'â'), ('Ã', 'ã'), ('Ä', 'ä'), ('Å', 'å'),
   ('Æ', 'æ'), ('Ç', 'ç'), ('È', 'è'), ('É', 'é'), ('Ê', 'ê'), ('Ë', 'ë'),
   ('Ì', 'ì'), ('Í', 'í'), ('Î', 'î'), ('Ï', 'ï'), ('Ð', 'ð'), ('Ñ', 'ñ'),
   ('Ò', 'ò'), ('Ó', 'ó'), ('Ô', 'ô'), ('Õ', 'õ'), ('Ö', 'ö'), ('Ø', 'ø'),
   ('Ù', 'ù'), ('Ú', 'ú'), ('Û', 'û'), ('Ü', 'ü'), ('Ý', 'ý'), ('Þ', 'þ')]

/-- Python `str.lower()` on one character. -/
def pyLower (c : Char) : Char :=
  match caseTable.find? (fun p => p.1 == c) with
  | some p => p.2
  | none => c

/-- Python `str.upper()` on one character. -/
def pyUpper (c : Char) : Char :=
  match caseTable.find? (fun p => p.2 == c) with
  | some p => p.1
  | none => c

/-- Python's whitespace class for `str` patterns (`\s` in `re`) and for
`str.strip` / `str.isspace`: ASCII whitespace and separators plus the Unicode
space characters. -/
def pyIsSpace (c : Char) : Bool :=
  [9, 10, 11, 12, 13, 28, 29, 30, 31, 32, 133, 160, 0x1680,
   0x2028, 0x2029, 0x202F, 0x205F, 0x3000].contains c.toNat
  || (0x2000 ≤ c.toNat && c.toNat ≤ 0x200A)

/-- Python `str.strip()`: drop leading and trailing whitespace. -/
def pyStrip (s : String) : String :=
  ⟨((s.data.dropWhile pyIsSpace).reverse.dropWhile pyIsSpace).reverse⟩

/-- Python `str.lower()` lifted to strings. -/
def pyStrLower (s : String) : String := ⟨s.data.map pyLower⟩

/-- Python `str.upper()` lifted to strings. -/
def pyStrUpper (s : String) : String := ⟨s.data.map pyUpper⟩

/-- `normalizers.normalize_string`: `re.sub(r'\s+', '', s.lower())` — lowercase,
then delete every whitespace character (the `if not s` guard returns `""`,
which coincides with the general path on the empty string). -/
def normalize_string (s : String) : String :=
  ⟨(s.data.map pyLower).filter (fun c => !pyIsSpace c)⟩

/-- ASCII decimal digit test (`str.isdigit` on the data seen here). -/
def isAsciiDigit (c : Char) : Bool := 48 ≤ c.toNat && c.toNat ≤ 57

/-- Numeric value of a list of ASCII digits (most significant first). -/
def digitsToNat (cs : List Char) : ℕ :=
  cs.foldl (fun acc c => 10 * acc + (c.toNat - 48)) 0

/-! ## Date parsing (`datetime.strptime` on the formats used by the code)

`strptime` compiles a format into a regex: `%Y` is exactly four digits, `%m`
is `1[0-2]|0[1-9]|[1-9]` and `%d` is `3[01]|[12]\d|0[1-9]|[1-9]` (one or two
digits, value in range, two-digit forms may carry a leading zero), the whole
input must be consumed, and the resulting numbers must form a valid proleptic
Gregorian date (`datetime` raises otherwise).  For the separated formats this
is equivalent to splitting on the (non-digit) separator into exactly three
such tokens. -/

/-- A parsed calendar date. -/
structure SimpleDate where
  year : ℕ
  month : ℕ
  day : ℕ
  deriving DecidableEq, Repr

/-- Gregorian leap-year rule (as in Python's `datetime`). -/
def isLeapYear (y : ℕ) : Bool := y % 4 = 0 && (y % 100 ≠ 0 || y % 400 = 0)

/-- Number of days in a month (month assumed in 1..12). -/
def daysInMonth (y m : ℕ) : ℕ :=
  if m = 2 then (if isLeapYear y then 29 else 28)
  else if [4, 6, 9, 11].contains m then 30
  else 31

/-- The `%Y` token: exactly four ASCII digits. -/
def yearToken (cs : List Char) : Option ℕ :=
  if cs.length = 4 && cs.all isAsciiDigit then some (digitsToNat cs) else none

/-- The `%m` token: one or two digits with value 1..12. -/
def monthToken (cs : List Char) : Option ℕ :=
  if (cs.length = 1 || cs.length = 2) && cs.all isAsciiDigit then
    let v := digitsToNat cs
    if 1 ≤ v && v ≤ 12 then some v else none
  else none

/-- The `%d` token: one or two digits with value 1..31. -/
def dayToken (cs : List Char) : Option ℕ :=
  if (cs.length = 1 || cs.length = 2) && cs.all isAsciiDigit then
    let v := digitsToNat cs
    if 1 ≤ v && v ≤ 31 then some v else none
  else none

/-- The `datetime(y, m, d)` constructor check: `MINYEAR ≤ y` and the day fits
the month (the four-digit year token already bounds `y ≤ 9999`). -/
def mkValidDate (y m d : ℕ) : Option SimpleDate :=
  if 1 ≤ y && d ≤ daysInMonth y m then some ⟨y, m, d⟩ else none

/-- Split a character list on every occurrence of `sep` (like
`str.split(sep)`: `n` separators yield `n+1` fields, possibly empty). -/
def splitOnChar (sep : Char) : List Char → List (List Char)
  | [] => [[]]
  | c :: cs =>
    let r := splitOnChar sep cs
    if c = sep then [] :: r
    else
      match r with
      | [] => [[c]]
      | h :: t => (c :: h) :: t

/-- Exactly three fields separated by `sep`, else failure. -/
def threeFields (sep : Char) (s : String) : Option (List Char × List Char × List Char) :=
  match splitOnChar sep s.data with
  | [a, b, c] => some (a, b, c)
  | _ => none

/-- `strptime(s, "%Y<sep>%m<sep>%d")`. -/
def parseYMD (sep : Char) (s : String) : Option SimpleDate :=
  match threeFields sep s with
  | some (a, b, c) =>
    match yearToken a, monthToken b, dayToken c with
    | some y, some m, some d => mkValidDate y m d
    | _, _, _ => none
  | none => none

/-- `strptime(s, "%m<sep>%d<sep>%Y")`. -/
def parseMDY (sep : Char) (s : String) : Option SimpleDate :=
  match threeFields sep s with
  | some (a, b, c) =>
    match monthToken a, dayToken b, yearToken c with
    | some m, some d, some y => mkValidDate y m d
    | _, _, _ => none
  | none => none

/-- `strptime(s, "%d<sep>%m<sep>%Y")`. -/
def parseDMY (sep : Char) (s : String) : Option SimpleDate :=
  match threeFields sep s with
  | some (a, b, c) =>
    match dayToken a, monthToken b, yearToken c with
    | some d, some m, some y => mkValidDate y m d
    | _, _, _ => none
  | none => none

/-- `strptime(s, "%Y%m%d")`: four digits of year, then the month/day split of
the remainder.  The regex backtracks month-major (two-digit month before
one-digit month); within a fixed split the remainder must be a single day
token.  Calendar validity is checked once on the regex's match, with no
further backtracking (`strptime` raises there). -/
def parseCompact (s : String) : Option SimpleDate :=
  let cs := s.data
  match yearToken (cs.take 4) with
  | none => none
  | some y =>
    let rest := cs.drop 4
    match monthToken (rest.take 2), dayToken (rest.drop 2) with
    | some m, some d => mkValidDate y m d
    | _, _ =>
      match monthToken (rest.take 1), dayToken (rest.drop 1) with
      | some m, some d => mkValidDate y m d
      | _, _ => none

/-- Zero-pad a natural number to two digits (`strftime` `%m`/`%d`). -/
def pad2 (n : ℕ) : String := if n < 10 then "0" ++ toString n else toString n

/-- Zero-pad a natural number to four digits (`strftime` `%Y`). -/
def pad4 (n : ℕ) : String :=
  if n < 10 then "000" ++ toString n
  else if n < 100 then "00" ++ toString n
  else if n < 1000 then "0" ++ toString n
  else toString n

/-- `dt.strftime('%Y-%m-%d')`. -/
def formatISO (d : SimpleDate) : String :=
  pad4 d.year ++ "-" ++ pad2 d.month ++ "-" ++ pad2 d.day

/-- `normalizers.normalize_date`: try `%Y-%m-%d`, `%m/%d/%Y`, `%d/%m/%Y`,
`%Y/%m/%d` in that order; return the first successful parse re-rendered as
ISO; return the input unchanged when none parses (and `""` for `""`). -/
def normalize_date (s : String) : String :=
  if s = "" then ""
  else
    match parseYMD '-' s with
    | some d => formatISO d
    | none =>
      match parseMDY '/' s with
      | some d => formatISO d
      | none =>
        match parseDMY '/' s with
        | some d => formatISO d
        | none =>
          match parseYMD '/' s with
          | some d => formatISO d
          | none => s

/-- `normalizers.normalize_gender`: uppercase + strip, then map the variant
lists to `MALE`/`FEMALE`, otherwise pass the uppercased value through. -/
def normalize_gender (g : String) : String :=
  if g = "" then ""
  else
    let u := pyStrip (pyStrUpper g)
    if ["M", "MALE", "MASCHIO", "UOMO", "MAN"].contains u then "MALE"
    else if ["F", "FEMALE", "FEMMINA", "DONNA", "WOMAN"].contains u then "FEMALE"
    else u

/-! ## Date similarity (`utils/date_similarity.py`)

The module defines `is_fuzzy_date_match` twice; the second definition (day
difference within a tolerance of 2) shadows the first (weighted digit
similarity against a threshold) at import time, so the second one is what
`patient_matcher` imports.  Both are embedded; the shadowed one is named
`is_fuzzy_date_match_v1`. -/

/-- The `similar_digits` table (visually confusable characters). -/
def similarDigits (c : Char) : List Char :=
  match c with
  | '0' => ['0', '8', 'o', 'O']
  | '1' => ['1', 'l', 'I', '|']
  | '2' => ['2', 'z', 'Z']
  | '3' => ['3', '8']
  | '4' => ['4', 'A']
  | '5' => ['5', 'S', 's']
  | '6' => ['6', 'G']
  | '7' => ['7', 'T']
  | '8' => ['8', '0', '3', 'B']
  | '9' => ['9', 'g', 'q']
  | _ => []

/-- Position weights: year > month > day. -/
def positionWeights : List Flt :=
  [pct 20, pct 20, pct 15, pct 15, pct 10, pct 10, pct 5, pct 5]

/-- Per-position weighted score: full weight on equality, half weight on a
confusable pair, zero otherwise. -/
def weightedScore : List Char → List Char → List Flt → Flt
  | a :: as, b :: bs, w :: ws =>
    (if a = b then w
     else if a ∈ similarDigits b ∨ b ∈ similarDigits a then w.mul (pct 50)
     else pct 0) + weightedScore as bs ws
  | _, _, _ => pct 0

/-- `calculate_digit_similarity`: zero unless both digit strings have length
exactly 8, else the weighted score normalised by the total weight. -/
def calculate_digit_similarity (d1 d2 : List Char) : Flt :=
  if d1.length ≠ d2.length ∨ d1.length ≠ 8 then pct 0
  else
    let total := Flt.sum positionWeights
    if pct 0 < total then (weightedScore d1 d2 positionWeights).div total else pct 0

/-- `calculate_date_similarity`: 0 on an empty argument; 1 when the normalized
dates coincide; strip hyphens and require both digit strings to have length 8,
else 0; otherwise the weighted digit similarity. -/
def calculate_date_similarity (date1 date2 : String) : Flt :=
  if date1 = "" ∨ date2 = "" then pct 0
  else
    let n1 := normalize_date date1
    let n2 := normalize_date date2
    if n1 = n2 then pct 100
    else
      let g1 := n1.data.filter (fun c => c ≠ '-')
      let g2 := n2.data.filter (fun c => c ≠ '-')
      if g1.length ≠ g2.length ∨ g1.length ≠ 8 then pct 0
      else calculate_digit_similarity g1 g2

/-- The first (shadowed) `is_fuzzy_date_match`: similarity at least the
threshold, whose default is `0.8`. -/
def is_fuzzy_date_match_v1 (date1 date2 : String) (threshold : Flt) : Bool :=
  threshold ≤ calculate_date_similarity date1 date2

/-- `normalize_date_for_comparison` (second half of the module): strip, then
try `%Y-%m-%d`, `%d/%m/%Y`, `%m/%d/%Y`, `%d-%m-%Y`, `%m-%d-%Y`, `%Y%m%d`,
`%d.%m.%Y` in that order. -/
def normalize_date_for_comparison (s : String) : Option SimpleDate :=
  if s = "" ∨ pyStrip s = "" then none
  else
    let t := pyStrip s
    match parseYMD '-' t with
    | some d => some d
    | none =>
      match parseDMY '/' t with
      | some d => some d
      | none =>
        match parseMDY '/' t with
        | some d => some d
        | none =>
          match parseDMY '-' t with
          | some d => some d
          | none =>
            match parseMDY '-' t with
            | some d => some d
            | none =>
              match parseCompact t with
              | some d => some d
              | none => parseDMY '.' t

/-- Days strictly before year `y` in the proleptic Gregorian calendar
(`datetime.toordinal` of Jan 1 of `y`, minus one). -/
def daysBeforeYear (y : ℕ) : ℕ :=
  365 * (y - 1) + ((y - 1) / 4 + (y - 1) / 400 - (y - 1) / 100)

/-- Days strictly before month `m` within year `y`. -/
def daysBeforeMonth (y m : ℕ) : ℕ :=
  [0, 31, 59, 90, 120, 151, 181, 212, 243, 273, 304, 334].getD (m - 1) 0
  + (if 2 < m && isLeapYear y then 1 else 0)

/-- `datetime.toordinal`. -/
def toOrdinal (d : SimpleDate) : ℕ :=
  daysBeforeYear d.year + daysBeforeMonth d.year d.month + d.day

/-- `abs((dt1 - dt2).days)`. -/
def dateDiffDays (d1 d2 : SimpleDate) : ℕ :=
  ((toOrdinal d1 : ℤ) - (toOrdinal d2 : ℤ)).natAbs

/-- The second — effective — `is_fuzzy_date_match`: equal after strip, or both
parse under `normalize_date_for_comparison` and differ by at most
`tolerance_days = 2` days (the default; embedded inline). -/
def is_fuzzy_date_match (date1 date2 : String) : Bool :=
  if date1 = "" ∨ date2 = "" then false
  else if pyStrip date1 = pyStrip date2 then true
  else
    match normalize_date_for_comparison date1, normalize_date_for_comparison date2 with
    | some d1, some d2 => dateDiffDays d1 d2 ≤ 2
    | _, _ => false

/-! ## Italian Codice Fiscale (`utils/italian_cf.py`) -/

/-- `extract_gender_from_codice_fiscale`: require at least 11 characters, take
the 0-indexed slice `[9:11]` (1-indexed positions 10–11), require it numeric;
day 1..31 is MALE, day 41..71 is FEMALE, anything else undeterminable. -/
def extract_gender_from_codice_fiscale (ssn : String) : Option String :=
  if ssn.data.length < 11 then none
  else
    let dayChars := (ssn.data.drop 9).take 2
    if dayChars.all isAsciiDigit then
      let day := digitsToNat dayChars
      if 1 ≤ day && day ≤ 31 then some "MALE"
      else if 41 ≤ day && day ≤ 71 then some "FEMALE"
      else none
    else none

/-- `is_codice_fiscale_gender_consistent`: consistent when extraction is
undeterminable or matches the uppercased, stripped declared gender. -/
def is_codice_fiscale_gender_consistent (cf declared : String) : Bool :=
  match extract_gender_from_codice_fiscale cf with
  | none => true
  | some g => g = pyStrip (pyStrUpper declared)

/-! ## Key builders (`utils/key_builders.py`) -/

/-- `create_exact_match_key`. -/
def create_exact_match_key (family given sex dob : String) : String :=
  normalize_string family ++ "|" ++ normalize_string given ++ "|"
    ++ normalize_gender sex ++ "|" ++ normalize_date dob

/-- `create_loose_match_key`. -/
def create_loose_match_key (family given dob : String) : String :=
  normalize_string family ++ "|" ++ normalize_string given ++ "|" ++ normalize_date dob

/-- `create_name_only_match_key`. -/
def create_name_only_match_key (family given : String) : String :=
  normalize_string family ++ "|" ++ normalize_string given

/-- `create_flipped_match_key`. -/
def create_flipped_match_key (family given sex dob : String) : String :=
  normalize_string given ++ "|" ++ normalize_string family ++ "|"
    ++ normalize_gender sex ++ "|" ++ normalize_date dob

/-- `create_flipped_loose_match_key`. -/
def create_flipped_loose_match_key (family given dob : String) : String :=
  normalize_string given ++ "|" ++ normalize_string family ++ "|" ++ normalize_date dob

/-- `create_flipped_name_only_key`. -/
def create_flipped_name_only_key (family given : String) : String :=
  normalize_string given ++ "|" ++ normalize_string family

/-- The dict returned by `create_composite_keys` (a fixed-shape literal, so a
structure; field order is the dict's insertion order). -/
structure CompositeKeys where
  exact : String
  loose : String
  name_only : String
  flipped_exact : String
  flipped_loose : String
  flipped_name_only : String
  deriving DecidableEq, Repr

/-- `create_composite_keys`. -/
def create_composite_keys (family given sex dob : String) : CompositeKeys where
  exact := create_exact_match_key family given sex dob
  loose := create_loose_match_key family given dob
  name_only := create_name_only_match_key family given
  flipped_exact := create_flipped_match_key family given sex dob
  flipped_loose := create_flipped_loose_match_key family given dob
  flipped_name_only := create_flipped_name_only_key family given

/-! ## Data models (`core/data_models.py`) -/

/-- Python-level exceptions the embedded code can raise. -/
inductive PyErr where
  | typeError
  | indexError
  | valueError
  deriving DecidableEq, Repr

/-- A Python dict of strings: association list, first occurrence wins. -/
def PyDict := List (String × String)

instance : DecidableEq PyDict := inferInstanceAs (DecidableEq (List (String × String)))

/-- `d.get(k, default)`. -/
def dictGet (d : PyDict) (k default : String) : String :=
  match d.find? (fun p => p.1 == k) with
  | some p => p.2
  | none => default

/-- `d.get(k)` as an `Option`. -/
def dictGetOpt (d : PyDict) (k : String) : Option String :=
  (d.find? (fun p => p.1 == k)).map (fun p => p.2)

/-- The keys of a dict. -/
def dictKeys (d : PyDict) : List String := d.map (fun p => p.1)

/-- `MatchType` (enum). -/
inductive MatchType where
  | goldStandard
  | exactGenderLoose
  | flippedExact
  | flippedGenderLoose
  | partialExact
  | partialGenderLoose
  | exactFuzzyDob
  | flippedFuzzyDob
  | partialFuzzyDob
  | noMatch
  deriving DecidableEq, Repr

/-- `MatchType(value)` — the enum constructor on a value string (raises
`ValueError`, hence `none`, on an unknown value). -/
def matchTypeOfName (s : String) : Option MatchType :=
  if s = "GOLD_STANDARD" then some .goldStandard
  else if s = "EXACT_GENDER_LOOSE" then some .exactGenderLoose
  else if s = "FLIPPED_EXACT" then some .flippedExact
  else if s = "FLIPPED_GENDER_LOOSE" then some .flippedGenderLoose
  else if s = "PARTIAL_EXACT" then some .partialExact
  else if s = "PARTIAL_GENDER_LOOSE" then some .partialGenderLoose
  else if s = "EXACT_FUZZY_DOB" then some .exactFuzzyDob
  else if s = "FLIPPED_FUZZY_DOB" then some .flippedFuzzyDob
  else if s = "PARTIAL_FUZZY_DOB" then some .partialFuzzyDob
  else if s = "NO_MATCH" then some .noMatch
  else none

/-- `ConfidenceLevel` (enum). -/
inductive ConfidenceLevel where
  | goldStandard
  | highConfidence
  | moderateConfidence
  | acceptableConfidence
  | manualReview
  | noMatch
  deriving DecidableEq, Repr

/-- The `PatientRecord` dataclass: four required string fields, seven optional
fields defaulting to `None`. -/
structure PatientRecord where
  family_name : String
  given_name : String
  sex : String
  dob : String
  pms_id : Option String
  practice_pms_id : Option String
  dicom_id : Option String
  middle_name : Option String
  custom_identifier : Option String
  middle_initial : Option String
  ssn : Option String
  deriving DecidableEq, Repr

/-- The field names of the `PatientRecord` dataclass, i.e. the admissible
keyword arguments of its constructor. -/
def patientRecordFields : List String :=
  ["family_name", "given_name", "sex", "dob", "pms_id", "practice_pms_id",
   "dicom_id", "middle_name", "custom_identifier", "middle_initial", "ssn"]

/-- `PatientRecord(**d)`: a `TypeError` unless every key of `d` is a dataclass
field and the four required fields are present. -/
def constructPatientRecord (d : PyDict) : Except PyErr PatientRecord :=
  if (dictKeys d).all (fun k => patientRecordFields.contains k) then
    match dictGetOpt d "family_name", dictGetOpt d "given_name",
          dictGetOpt d "sex", dictGetOpt d "dob" with
    | some fam, some giv, some sex, some dob =>
      .ok ⟨fam, giv, sex, dob, dictGetOpt d "pms_id", dictGetOpt d "practice_pms_id",
           dictGetOpt d "dicom_id", dictGetOpt d "middle_name",
           dictGetOpt d "custom_identifier", dictGetOpt d "middle_initial",
           dictGetOpt d "ssn"⟩
    | _, _, _, _ => .error .typeError
  else .error .typeError

/-- A value of the candidate index `Dict[str, Union[dict, List[dict]]]`. -/
inductive PmsEntry where
  | one (d : PyDict)
  | many (ds : List PyDict)
  deriving DecidableEq

/-- `pms_data[0]` after the `isinstance(pms_data, list)` branch: a single dict
passes through, a list yields its first element (raising `IndexError` when
empty). -/
def firstCandidate : PmsEntry → Except PyErr PyDict
  | .one d => .ok d
  | .many [] => .error .indexError
  | .many (d :: _) => .ok d

/-- The `MatchResult` dataclass.  The free-form diagnostic dict
`match_details` (strategy names and debug payload only, inspected by no claim
and by no downstream code path embedded here) is omitted. -/
structure MatchResult where
  match_found : Bool
  pms_data : Option PatientRecord
  confidence_score : Flt
  match_type : MatchType
  requires_manual_review : Bool
  is_gender_mismatch : Bool
  is_date_correction : Bool
  is_name_flip : Bool
  is_partial_match : Bool
  is_pms_gender_error : Bool
  deriving DecidableEq, Repr

/-- `MatchResult.get_confidence_level`. -/
def get_confidence_level (score : Flt) : ConfidenceLevel :=
  if pct 100 ≤ score then .goldStandard
  else if pct 95 ≤ score then .highConfidence
  else if pct 80 ≤ score then .moderateConfidence
  else if pct 70 ≤ score then .acceptableConfidence
  else if pct 50 ≤ score then .manualReview
  else .noMatch

/-- The `MatchingStrategy` descriptor. -/
structure MatchingStrategy where
  name : String
  rules : List String
  confidence : Flt
  priority : ℕ
  description : String
  deriving DecidableEq, Repr

/-- The `SessionStatistics` dataclass (all counters default to 0). -/
structure SessionStatistics where
  total_processed : ℕ
  auto_matched : ℕ
  manual_review_required : ℕ
  no_matches : ℕ
  gold_standard_matches : ℕ
  high_confidence_matches : ℕ
  moderate_confidence_matches : ℕ
  acceptable_confidence_matches : ℕ
  gender_corrections : ℕ
  date_corrections : ℕ
  name_flips : ℕ
  partial_name_matches : ℕ
  pms_gender_errors : ℕ
  deriving DecidableEq, Repr

/-- `SessionStatistics()` — all counters zero. -/
def freshSessionStatistics : SessionStatistics :=
  ⟨0, 0, 0, 0, 0, 0, 0, 0, 0, 0, 0, 0, 0⟩

/-! ## Confidence scoring (`core/confidence_scoring.py`) -/

/-- `ConfidenceCalculator.confidence_thresholds`: base confidence per match
type. -/
def confidence_thresholds : MatchType → Flt
  | .goldStandard => pct 100
  | .exactGenderLoose => pct 98
  | .flippedExact => pct 97
  | .flippedGenderLoose => pct 90
  | .partialExact => pct 85
  | .partialGenderLoose => pct 75
  | .exactFuzzyDob => pct 72
  | .flippedFuzzyDob => pct 65
  | .partialFuzzyDob => pct 55
  | .noMatch => pct 0

/-- `ConfidenceCalculator.correction_factors` (keyed `gender_mismatch`,
`date_correction`, …; note these are NOT the `is_`-prefixed keys that
`_identify_corrections` produces). -/
def correction_factors : List (String × Flt) :=
  [("gender_mismatch", pct (-5)),
   ("date_correction", pct (-3)),
   ("name_flip", pct (-2)),
   ("partial_match", pct (-10)),
   ("pms_gender_error", pct 2),
   ("codice_fiscale_validation", pct 5)]

/-- Lookup in an association list of rationals (`dict.__contains__` plus
`dict.__getitem__`). -/
def assocFactor (k : String) (l : List (String × Flt)) : Option Flt :=
  (l.find? (fun p => p.1 == k)).map (fun p => p.2)

/-- The corrections dict built by `_identify_corrections` (fixed key set, so a
structure; `correctionsItems` recovers the dict's iteration order). -/
structure Corrections where
  is_gender_mismatch : Bool
  is_date_correction : Bool
  is_name_flip : Bool
  is_partial_match : Bool
  is_pms_gender_error : Bool
  deriving DecidableEq, Repr

/-- The corrections dict's items, in insertion order. -/
def correctionsItems (c : Corrections) : List (String × Bool) :=
  [("is_gender_mismatch", c.is_gender_mismatch),
   ("is_date_correction", c.is_date_correction),
   ("is_name_flip", c.is_name_flip),
   ("is_partial_match", c.is_partial_match),
   ("is_pms_gender_error", c.is_pms_gender_error)]

/-- `ConfidenceCalculator.calculate_adjusted_confidence`: for each correction
flag that is set AND whose key occurs in `correction_factors`, add the factor;
finally clamp into [0, 1].  (Because the corrections dict uses `is_`-prefixed
keys, no key ever occurs in the factor table.) -/
def calculate_adjusted_confidence (base : Flt) (corr : Corrections) : Flt :=
  let adjusted := (correctionsItems corr).foldl
    (fun acc kv =>
      if kv.2 && (assocFactor kv.1 correction_factors).isSome then
        acc + (assocFactor kv.1 correction_factors).getD (pct 0)
      else acc) base
  Flt.max (pct 0) (Flt.min (pct 100) adjusted)

/-- `ConfidenceCalculator.requires_manual_review`: score strictly below 0.70. -/
def requires_manual_review (score : Flt) : Bool := score < pct 70

/-! ## The matcher (`core/patient_matcher.py`) -/

/-- `ClinicalPatientMatcher._initialize_strategies`: the nine strategies in
priority order. -/
def strategies : List MatchingStrategy :=
  [⟨"GOLD_STANDARD",
    ["family_name_exact", "given_name_exact", "dob_exact", "gender_exact"],
    pct 100, 1, "Perfect match on all fields"⟩,
   ⟨"EXACT_GENDER_LOOSE",
    ["family_name_exact", "given_name_exact", "dob_exact", "gender_loose"],
    pct 98, 2, "Names and DOB exact, gender differs"⟩,
   ⟨"FLIPPED_EXACT",
    ["family_name_flipped_exact", "given_name_flipped_exact", "dob_exact", "gender_exact"],
    pct 97, 3, "Names flipped but all fields exact"⟩,
   ⟨"FLIPPED_GENDER_LOOSE",
    ["family_name_flipped_exact", "given_name_flipped_exact", "dob_exact", "gender_loose"],
    pct 90, 4, "Names flipped, DOB exact, gender differs"⟩,
   ⟨"PARTIAL_EXACT",
    ["family_name_partial", "given_name_partial", "dob_exact", "gender_exact"],
    pct 85, 5, "Partial name match with exact DOB and gender"⟩,
   ⟨"PARTIAL_GENDER_LOOSE",
    ["family_name_partial", "given_name_partial", "dob_exact", "gender_loose"],
    pct 75, 6, "Partial name match with exact DOB, gender differs"⟩,
   ⟨"EXACT_FUZZY_DOB",
    ["family_name_exact", "given_name_exact", "dob_fuzzy", "gender_exact"],
    pct 72, 7, "Names exact, fuzzy DOB match"⟩,
   ⟨"FLIPPED_FUZZY_DOB",
    ["family_name_flipped_exact", "given_name_flipped_exact", "dob_fuzzy", "gender_loose"],
    pct 65, 8, "Names flipped with fuzzy DOB match"⟩,
   ⟨"PARTIAL_FUZZY_DOB",
    ["family_name_partial", "given_name_partial", "dob_fuzzy", "gender_loose"],
    pct 55, 9, "Partial names with fuzzy DOB match"⟩]

/-- `needle in haystack` for character lists. -/
def startsWithChars : List Char → List Char → Bool
  | _, [] => true
  | [], _ :: _ => false
  | h :: t, n :: ns => h = n && startsWithChars t ns

/-- Python's substring containment operator `in`. -/
def pyIn (needle hay : String) : Bool :=
  containsAux hay.data needle.data
where
  containsAux : List Char → List Char → Bool
    | [], n => n.isEmpty
    | h :: t, n => startsWithChars (h :: t) n || containsAux t n

/-- `ClinicalPatientMatcher._select_match_key`: dispatch on substrings of the
uppercased strategy name; PARTIAL strategies get `None` ("will be handled
separately"). -/
def select_match_key (strat : MatchingStrategy) (keys : CompositeKeys) : Option String :=
  let n := pyStrUpper strat.name
  if pyIn "FLIPPED" n then
    if pyIn "GENDER_LOOSE" n || pyIn "FUZZY_DOB" n then some keys.flipped_loose
    else some keys.flipped_exact
  else if pyIn "PARTIAL" n then none
  else if pyIn "FUZZY_DOB" n then some keys.name_only
  else if pyIn "GENDER_LOOSE" n then some keys.loose
  else some keys.exact

/-- `ClinicalPatientMatcher._identify_corrections`. -/
def identify_corrections (dtx pms : PyDict) (strat : MatchingStrategy) : Corrections :=
  let dtxSex := normalize_gender (dictGet dtx "sex" "")
  let pmsSex := normalize_gender (dictGet pms "gender" "")
  let dtxDob := normalize_date (dictGet dtx "dob" "")
  let pmsDob := normalize_date (dictGet pms "dob" "")
  let gm := dtxSex ≠ "" && pmsSex ≠ "" && dtxSex ≠ pmsSex
  let cf := dictGet pms "ssn" ""
  let pge := gm && (cf ≠ "" && !is_codice_fiscale_gender_consistent cf pmsSex)
  let dc := dtxDob ≠ "" && pmsDob ≠ "" && dtxDob ≠ pmsDob
            && is_fuzzy_date_match dtxDob pmsDob
  let nf := pyIn "FLIPPED" (pyStrUpper strat.name)
  let pm := pyIn "PARTIAL" (pyStrUpper strat.name)
  ⟨gm, dc, nf, pm, pge⟩

/-- The `MatchResult` a strategy returns when its key has no hit. -/
def strategyNoMatch : MatchResult :=
  ⟨false, none, pct 0, .noMatch, false, false, false, false, false, false⟩

/-- `ClinicalPatientMatcher._evaluate_strategy`. -/
def evaluate_strategy (dtx : PyDict) (lookup : String → Option PmsEntry)
    (strat : MatchingStrategy) (keys : CompositeKeys) : Except PyErr MatchResult :=
  match select_match_key strat keys with
  | none => .ok strategyNoMatch
  | some k =>
    if k = "" then .ok strategyNoMatch
    else
      match lookup k with
      | none => .ok strategyNoMatch
      | some entry => do
        let pms ← firstCandidate entry
        let corr := identify_corrections dtx pms strat
        let adjusted := calculate_adjusted_confidence strat.confidence corr
        let review := requires_manual_review adjusted
        let pat ← constructPatientRecord pms
        match matchTypeOfName strat.name with
        | none => .error .valueError
        | some mt =>
          .ok ⟨true, some pat, adjusted, mt, review,
               corr.is_gender_mismatch, corr.is_date_correction,
               corr.is_name_flip, corr.is_partial_match, corr.is_pms_gender_error⟩

/-- First paragraph of `_update_session_stats`: manual-review vs auto-match. -/
def updateOutcomeCounters (r : MatchResult) (s : SessionStatistics) : SessionStatistics :=
  if r.requires_manual_review then
    { s with manual_review_required := s.manual_review_required + 1 }
  else { s with auto_matched := s.auto_matched + 1 }

/-- Second paragraph of `_update_session_stats`: the confidence-level
counters (`elif` chain; nothing counted below ACCEPTABLE). -/
def updateLevelCounters (r : MatchResult) (s : SessionStatistics) : SessionStatistics :=
  match get_confidence_level r.confidence_score with
  | .goldStandard => { s with gold_standard_matches := s.gold_standard_matches + 1 }
  | .highConfidence => { s with high_confidence_matches := s.high_confidence_matches + 1 }
  | .moderateConfidence =>
    { s with moderate_confidence_matches := s.moderate_confidence_matches + 1 }
  | .acceptableConfidence =>
    { s with acceptable_confidence_matches := s.acceptable_confidence_matches + 1 }
  | _ => s

/-- Third paragraph of `_update_session_stats`: correction-type counters. -/
def updateCorrectionCounters (r : MatchResult) (s : SessionStatistics) : SessionStatistics :=
  let s := if r.is_gender_mismatch then
    { s with gender_corrections := s.gender_corrections + 1 } else s
  let s := if r.is_date_correction then
    { s with date_corrections := s.date_corrections + 1 } else s
  let s := if r.is_name_flip then { s with name_flips := s.name_flips + 1 } else s
  let s := if r.is_partial_match then
    { s with partial_name_matches := s.partial_name_matches + 1 } else s
  let s := if r.is_pms_gender_error then
    { s with pms_gender_errors := s.pms_gender_errors + 1 } else s
  s

/-- `ClinicalPatientMatcher._update_session_stats` (the three paragraphs in
source order). -/
def update_session_stats (r : MatchResult) (s : SessionStatistics) : SessionStatistics :=
  updateCorrectionCounters r (updateLevelCounters r (updateOutcomeCounters r s))

/-- The final no-match `MatchResult` of `match_patient`. -/
def finalNoMatch : MatchResult :=
  ⟨false, none, pct 0, .noMatch, false, false, false, false, false, false⟩

/-- The strategy loop of `match_patient`: first strategy whose result has
`match_found` wins (after updating statistics); an exception propagates with
the statistics as already mutated; when all strategies fail, `no_matches` is
bumped and the terminal NO_MATCH result is returned. -/
def tryStrategies (dtx : PyDict) (lookup : String → Option PmsEntry)
    (keys : CompositeKeys) :
    List MatchingStrategy → SessionStatistics → SessionStatistics × Except PyErr MatchResult
  | [], s => ({ s with no_matches := s.no_matches + 1 }, .ok finalNoMatch)
  | strat :: rest, s =>
    match evaluate_strategy dtx lookup strat keys with
    | .error e => (s, .error e)
    | .ok r =>
      if r.match_found then (update_session_stats r s, .ok r)
      else tryStrategies dtx lookup keys rest s

/-- `ClinicalPatientMatcher.match_patient`: bump `total_processed`, read the
four identifier fields with `''` defaults, build the composite keys, and run
the strategy chain.  The pair holds the session statistics as left behind by
the call (also when it raises) and the result or exception. -/
def match_patient (dtx : PyDict) (lookup : String → Option PmsEntry)
    (s : SessionStatistics) : SessionStatistics × Except PyErr MatchResult :=
  let s1 := { s with total_processed := s.total_processed + 1 }
  let keys := create_composite_keys (dictGet dtx "family_name" "")
    (dictGet dtx "given_name" "") (dictGet dtx "sex" "") (dictGet dtx "dob" "")
  tryStrategies dtx lookup keys strategies s1

/-! ## Candidate-index construction (`core/clinical_service.py`) -/

/-- The key/value items of a `CompositeKeys` dict, in insertion order. -/
def compositeKeyItems (k : CompositeKeys) : List (String × String) :=
  [("exact", k.exact), ("loose", k.loose), ("name_only", k.name_only),
   ("flipped_exact", k.flipped_exact), ("flipped_loose", k.flipped_loose),
   ("flipped_name_only", k.flipped_name_only)]

/-- Replace the value under a key of an association list. -/
def setEntry (l : List (String × PmsEntry)) (k : String) (v : PmsEntry) :
    List (String × PmsEntry) :=
  l.map (fun p => if p.1 = k then (k, v) else p)

/-- Lookup in the association-list candidate index. -/
def indexFind (l : List (String × PmsEntry)) (k : String) : Option PmsEntry :=
  (l.find? (fun p => p.1 == k)).map (fun p => p.2)

/-- `ClinicalMatchingService._store_pms_record`: insert the record under every
composite key; on collision a single dict becomes a two-element list and a
list is appended to (every key class accumulates). -/
def store_pms_record (l : List (String × PmsEntry)) (keys : CompositeKeys)
    (pms : PyDict) : List (String × PmsEntry) :=
  (compositeKeyItems keys).foldl
    (fun acc kv =>
      match indexFind acc kv.2 with
      | none => acc ++ [(kv.2, .one pms)]
      | some (.one d) => setEntry acc kv.2 (.many [d, pms])
      | some (.many ds) => setEntry acc kv.2 (.many (ds ++ [pms]))) l

/-! ## Concrete scenarios

Records and candidate indexes used to evaluate the embedded matcher at
concrete inputs.  `smith*` is the gold-standard fixture of the repository's
own test suite (`tests/test_clinical_matching.py`), with the candidate dict
shaped exactly like the dicts `ClinicalMatchingService.load_pms_data` builds
(keys `first_name`, `last_name`, `gender`, …).  `scenarioC*` is the spec's
Scenario C (suffixed names).  `flip*` is a flipped-name match with a
candidate dict whose keys are `PatientRecord` fields, so that construction
succeeds.  `fuzzy*` exposes strategy 7 with a candidate of wildly different
date of birth and sex. -/

/-- Scenario: incoming Smith/John record (spec Scenario A). -/
def smithDtx : PyDict :=
  [("family_name", "Smith"), ("given_name", "John"), ("sex", "Male"),
   ("dob", "1990-01-15")]

/-- The service-shaped candidate dict for Smith/John. -/
def smithPms : PyDict :=
  [("first_name", "John"), ("last_name", "Smith"), ("gender", "Male"),
   ("dob", "1990-01-15"), ("pms_id", "PMS001")]

/-- Candidate index holding Smith/John under its exact key. -/
def smithLookup (k : String) : Option PmsEntry :=
  if k = "smith|john|MALE|1990-01-15" then some (.one smithPms) else none

/-- The composite keys of the Scenario C reference record Rossi/Mario. -/
def rossiRefKeys : CompositeKeys := create_composite_keys "Rossi" "Mario" "MALE" "1975-03-12"

/-- The Scenario C reference record as stored by the loader. -/
def rossiPms : PyDict :=
  [("custom_identifier", "PMS001"), ("first_name", "Mario"), ("last_name", "Rossi"),
   ("gender", "MALE"), ("dob", "1975-03-12"), ("ssn", "")]

/-- Candidate index with Rossi/Mario under all six of its composite keys. -/
def rossiLookup (k : String) : Option PmsEntry :=
  if k = rossiRefKeys.exact ∨ k = rossiRefKeys.loose ∨ k = rossiRefKeys.name_only
     ∨ k = rossiRefKeys.flipped_exact ∨ k = rossiRefKeys.flipped_loose
     ∨ k = rossiRefKeys.flipped_name_only
  then some (.one rossiPms) else none

/-- The Scenario C incoming record with suffixed names. -/
def scenarioCDtx : PyDict :=
  [("family_name", "Rossi BIS"), ("given_name", "Mario TRIS"), ("sex", "MALE"),
   ("dob", "1975-03-12")]

/-- A candidate dict for Brown/Mary whose keys are `PatientRecord` fields. -/
def brownPms : PyDict :=
  [("family_name", "Brown"), ("given_name", "Mary"), ("sex", "Female"),
   ("dob", "1992-07-08"), ("pms_id", "PMS003")]

/-- Incoming record with family and given names swapped relative to
`brownPms` (spec Scenario B). -/
def flipDtx : PyDict :=
  [("family_name", "Mary"), ("given_name", "Brown"), ("sex", "Female"),
   ("dob", "1992-07-08")]

/-- Candidate index holding Brown/Mary under the flipped-exact key of
`flipDtx`. -/
def flipLookup (k : String) : Option PmsEntry :=
  if k = "brown|mary|FEMALE|1992-07-08" then some (.one brownPms) else none

/-- The match result of running `flipDtx` against `flipLookup`. -/
def flipExpected : MatchResult :=
  ⟨true,
   some ⟨"Brown", "Mary", "Female", "1992-07-08", some "PMS003",
         none, none, none, none, none, none⟩,
   pct 97, .flippedExact, false, false, false, true, false, false⟩

/-- Candidate for strategy 7 with a far-away date of birth and female sex;
keys are `PatientRecord` fields so construction succeeds. -/
def fuzzyPms : PyDict :=
  [("family_name", "Rossi"), ("given_name", "Mario"), ("sex", "FEMALE"),
   ("dob", "1900-01-01")]

/-- Incoming male Rossi/Mario record with date of birth 1990-05-05. -/
def fuzzyDtx : PyDict :=
  [("family_name", "Rossi"), ("given_name", "Mario"), ("sex", "MALE"),
   ("dob", "1990-05-05")]

/-- Candidate index holding `fuzzyPms` under the name-only key alone. -/
def fuzzyLookup (k : String) : Option PmsEntry :=
  if k = "rossi|mario" then some (.one fuzzyPms) else none

/-- The match result of running `fuzzyDtx` against `fuzzyLookup`. -/
def fuzzyExpected : MatchResult :=
  ⟨true,
   some ⟨"Rossi", "Mario", "FEMALE", "1900-01-01", none,
         none, none, none, none, none, none⟩,
   pct 72, .exactFuzzyDob, false, false, false, false, false, false⟩

instance : DecidableEq (Except PyErr MatchResult) := fun a b =>
  match a, b with
  | .error e1, .error e2 =>
    if h : e1 = e2 then isTrue (by rw [h]) else isFalse (by intro hc; cases hc; exact h rfl)
  | .ok r1, .ok r2 =>
    if h : r1 = r2 then isTrue (by rw [h]) else isFalse (by intro hc; cases hc; exact h rfl)
  | .error _, .ok _ => isFalse (by intro hc; cases hc)
  | .ok _, .error _ => isFalse (by intro hc; cases hc)

/-! ## Theorems -/

set_option maxRecDepth 4000

/-- C1.  The repository's own gold-standard fixture: the incoming Smith/John
record against a candidate index holding the service-shaped dict
(`first_name`/`last_name`/`gender` keys).  `match_patient` selects the
GOLD_STANDARD strategy and then raises `TypeError` at
`PatientRecord(**pms_data)` because those keys are not `PatientRecord`
fields — it does not return a `MatchResult`.  The session statistics are
left with `total_processed` bumped and no outcome counter. -/
theorem c1_match_patient_raises_on_service_shaped_candidate :
    match_patient smithDtx smithLookup freshSessionStatistics
      = ({ freshSessionStatistics with total_processed := 1 }, .error .typeError) := by
  decide

/-- C2.  Spec Scenario C (reference Rossi/Mario, incoming "Rossi BIS"/"Mario
TRIS", same sex and date): the code returns NO_MATCH with confidence 0, not
PARTIAL_EXACT with confidence 0.85 — `_select_match_key` returns `None` for
every PARTIAL strategy ("will be handled separately") and no linear scan
exists, so strategies 5, 6 and 9 can never fire. -/
theorem c2_scenario_c_returns_no_match :
    (match_patient scenarioCDtx rossiLookup freshSessionStatistics).2 = .ok finalNoMatch
    ∧ finalNoMatch.match_found = false
    ∧ finalNoMatch.match_type = .noMatch
    ∧ finalNoMatch.confidence_score = pct 0
    ∧ select_match_key (strategies.get ⟨4, by decide⟩)
        (create_composite_keys "Rossi BIS" "Mario TRIS" "MALE" "1975-03-12") = none := by
  decide

/-- C4.  The module-level `is_fuzzy_date_match` is the second definition
(day-difference within 2 days), which shadows the first (weighted digit
similarity against the 0.80 default threshold).  At dates three days apart
the weighted similarity is 0.95 ≥ 0.80, so the claim expects `true`, but the
effective function returns `false`. -/
theorem c4_effective_fuzzy_match_ignores_similarity :
    is_fuzzy_date_match "1990-01-15" "1990-01-18" = false
    ∧ calculate_date_similarity "1990-01-15" "1990-01-18" = pct 95
    ∧ pct 80 ≤ pct 95
    ∧ is_fuzzy_date_match_v1 "1990-01-15" "1990-01-18" (pct 80) = true := by
  decide

/-- C5.  Strategy 7 (EXACT_FUZZY_DOB) matches on mere presence of the
name-only key: the candidate's date of birth has weighted similarity 0.70 <
0.80 with the incoming one and its sex differs, yet `match_found` is `true` —
`_evaluate_strategy` never consults the date-similarity threshold or the
gender for this strategy.  (The storage half of the claim does hold: a second
record under the same name-only key accumulates into a list.) -/
theorem c5_exact_fuzzy_dob_skips_predicate :
    (match_patient fuzzyDtx fuzzyLookup freshSessionStatistics).2 = .ok fuzzyExpected
    ∧ fuzzyExpected.match_found = true
    ∧ fuzzyExpected.match_type = .exactFuzzyDob
    ∧ calculate_date_similarity (dictGet fuzzyDtx "dob" "") (dictGet fuzzyPms "dob" "") = pct 70
    ∧ pct 70 < pct 80
    ∧ normalize_gender (dictGet fuzzyDtx "sex" "") ≠ normalize_gender (dictGet fuzzyPms "sex" "")
    ∧ indexFind
        (store_pms_record
          (store_pms_record [] (create_composite_keys "Rossi" "Mario" "MALE" "1975-03-12") rossiPms)
          (create_composite_keys "Rossi" "Mario" "FEMALE" "1975-03-13") fuzzyPms)
        "rossi|mario" = some (.many [rossiPms, fuzzyPms]) := by
  decide

/-- C6 counterexample.  `normalize_string` does not fold diacritics:
normalising "José" and "JOSE" gives different strings, refuting
`normalize_string("José") == normalize_string("JOSE")`. -/
theorem c6_diacritics_not_folded :
    normalize_string "José" ≠ normalize_string "JOSE" := by
  decide

/-- C9 counterexample.  `calculate_date_similarity` returns 0 — not 1 — when
both arguments are the empty string, refuting reflexivity over all strings. -/
theorem c9_similarity_empty_not_reflexive :
    calculate_date_similarity "" "" = pct 0 ∧ pct 0 ≠ pct 100 := by
  decide

/-- C10 counterexample.  A call of `match_patient` that raises (the Smith
gold-standard fixture with the service-shaped candidate dict) leaves the
counters with `total_processed = 1` but no outcome counted, so `total ≠ auto
+ manual + no` after this call. -/
theorem c10_raising_call_breaks_invariant :
    (match_patient smithDtx smithLookup freshSessionStatistics).1.total_processed
      ≠ (match_patient smithDtx smithLookup freshSessionStatistics).1.auto_matched
        + (match_patient smithDtx smithLookup freshSessionStatistics).1.manual_review_required
        + (match_patient smithDtx smithLookup freshSessionStatistics).1.no_matches := by
  decide

theorem pyLower_idem (c : Char) : pyLower (pyLower c) = pyLower c := by
  have htab : ∀ p ∈ caseTable, caseTable.find? (fun q => q.1 == p.2) = none := by decide
  cases h : caseTable.find? (fun p => p.1 == c) with
  | none =>
    have hc : pyLower c = c := by unfold pyLower; rw [h]
    rw [hc, hc]
  | some p =>
    have hmem : p ∈ caseTable := List.mem_of_find?_eq_some h
    have hpl : pyLower c = p.2 := by unfold pyLower; rw [h]
    have hpl2 : pyLower p.2 = p.2 := by unfold pyLower; rw [htab p hmem]
    rw [hpl, hpl2]

theorem lower_filter_fixed (l : List Char) :
    List.map pyLower (List.filter (fun c => !pyIsSpace c) (List.map pyLower l))
      = List.filter (fun c => !pyIsSpace c) (List.map pyLower l) := by
  have hfix : ∀ x ∈ List.filter (fun c => !pyIsSpace c) (List.map pyLower l),
      pyLower x = x := by
    intro x hx
    obtain ⟨c, _, rfl⟩ := List.mem_map.mp (List.mem_filter.mp hx).1
    exact pyLower_idem c
  calc List.map pyLower (List.filter (fun c => !pyIsSpace c) (List.map pyLower l))
      = List.map id (List.filter (fun c => !pyIsSpace c) (List.map pyLower l)) :=
        List.map_congr_left hfix
    _ = _ := List.map_id _

/-- C6, amended.  `normalize_string` is idempotent and insensitive to case and
internal whitespace; it preserves diacritics (and apostrophes) instead of
folding or stripping them: `normalize_string "José" = "josé" ≠ "jose"`. -/
theorem c6_normalize_string_idempotent_case_space :
    (∀ s : String, normalize_string (normalize_string s) = normalize_string s)
    ∧ normalize_string "JO SE" = normalize_string "jose"
    ∧ normalize_string "José" = "josé"
    ∧ normalize_string "JOSE" = "jose" := by
  refine ⟨fun s => ?_, by decide, by decide, by decide⟩
  show (⟨(List.map pyLower (normalize_string s).data).filter (fun c => !pyIsSpace c)⟩ : String)
    = normalize_string s
  show (⟨(List.map pyLower
    ((s.data.map pyLower).filter (fun c => !pyIsSpace c))).filter (fun c => !pyIsSpace c)⟩ : String)
    = normalize_string s
  rw [lower_filter_fixed]
  unfold normalize_string
  congr 1
  rw [List.filter_eq_self]
  intro a ha
  exact (List.mem_filter.mp ha).2

/-- C7.  `normalize_date` produces `1990-01-15` from each of the three
claimed inputs, tries the four formats in order (each clause below fires
exactly when the earlier formats failed), and returns the input unchanged —
without raising, being a total function — when no format parses. -/
theorem c7_normalize_date_formats :
    normalize_date "01/15/1990" = "1990-01-15"
    ∧ normalize_date "15/01/1990" = "1990-01-15"
    ∧ normalize_date "1990/01/15" = "1990-01-15"
    ∧ (∀ s d, parseYMD '-' s = some d → normalize_date s = formatISO d)
    ∧ (∀ s d, parseYMD '-' s = none → parseMDY '/' s = some d →
        normalize_date s = formatISO d)
    ∧ (∀ s d, parseYMD '-' s = none → parseMDY '/' s = none →
        parseDMY '/' s = some d → normalize_date s = formatISO d)
    ∧ (∀ s d, parseYMD '-' s = none → parseMDY '/' s = none →
        parseDMY '/' s = none → parseYMD '/' s = some d → normalize_date s = formatISO d)
    ∧ (∀ s, parseYMD '-' s = none → parseMDY '/' s = none →
        parseDMY '/' s = none → parseYMD '/' s = none → normalize_date s = s) := by
  have hempty : ∀ (d : SimpleDate), parseYMD '-' "" = some d → False := by
    intro d h; exact Option.noConfusion ((by decide : parseYMD '-' "" = none) ▸ h)
  refine ⟨by decide, by decide, by decide, ?_, ?_, ?_, ?_, ?_⟩
  · intro s d h1
    by_cases hs : s = ""
    · exact absurd (hs ▸ h1) (fun hc => hempty d hc)
    · unfold normalize_date; rw [if_neg hs, h1]
  · intro s d h1 h2
    by_cases hs : s = ""
    · subst hs
      exact Option.noConfusion ((by decide : parseMDY '/' "" = none) ▸ h2)
    · unfold normalize_date; rw [if_neg hs, h1, h2]
  · intro s d h1 h2 h3
    by_cases hs : s = ""
    · subst hs
      exact Option.noConfusion ((by decide : parseDMY '/' "" = none) ▸ h3)
    · unfold normalize_date; rw [if_neg hs, h1, h2, h3]
  · intro s d h1 h2 h3 h4
    by_cases hs : s = ""
    · subst hs
      exact Option.noConfusion ((by decide : parseYMD '/' "" = none) ▸ h4)
    · unfold normalize_date; rw [if_neg hs, h1, h2, h3, h4]
  · intro s h1 h2 h3 h4
    by_cases hs : s = ""
    · subst hs; decide
    · unfold normalize_date; rw [if_neg hs, h1, h2, h3, h4]

/-- C7 witness: the fallback clause at `"garbage"` and the US-format clause at
`"02/03/1991"`. -/
theorem c7_normalize_date_formats_witness :
    normalize_date "garbage" = "garbage" ∧ normalize_date "02/03/1991" = "1991-02-03" :=
  ⟨c7_normalize_date_formats.2.2.2.2.2.2.2 "garbage"
      (by decide) (by decide) (by decide) (by decide),
   (c7_normalize_date_formats.2.2.2.2.1 "02/03/1991" ⟨1991, 2, 3⟩
      (by decide) (by decide)).trans (by decide)⟩

theorem weightedScore_symm : ∀ (as bs : List Char) (ws : List Flt),
    weightedScore as bs ws = weightedScore bs as ws := by
  intro as
  induction as with
  | nil => intro bs ws; cases bs <;> cases ws <;> rfl
  | cons a as ih =>
    intro bs ws
    cases bs with
    | nil => cases ws <;> rfl
    | cons b bs =>
      cases ws with
      | nil => rfl
      | cons w ws =>
        show (if a = b then w
              else if a ∈ similarDigits b ∨ b ∈ similarDigits a then w.mul (pct 50)
              else pct 0) + weightedScore as bs ws
            = (if b = a then w
              else if b ∈ similarDigits a ∨ a ∈ similarDigits b then w.mul (pct 50)
              else pct 0) + weightedScore bs as ws
        rw [ih bs ws]
        congr 1
        by_cases hab : a = b
        · rw [if_pos hab, if_pos hab.symm]
        · rw [if_neg hab, if_neg (Ne.symm hab)]
          by_cases hsim : a ∈ similarDigits b ∨ b ∈ similarDigits a
          · rw [if_pos hsim, if_pos (Or.symm hsim)]
          · rw [if_neg hsim, if_neg (fun h => hsim (Or.symm h))]

theorem calculate_digit_similarity_symm (d1 d2 : List Char) :
    calculate_digit_similarity d1 d2 = calculate_digit_similarity d2 d1 := by
  unfold calculate_digit_similarity
  by_cases h12 : d1.length = d2.length
  · by_cases h8 : d1.length = 8
    · rw [if_neg (show ¬(d1.length ≠ d2.length ∨ d1.length ≠ 8) by omega),
          if_neg (show ¬(d2.length ≠ d1.length ∨ d2.length ≠ 8) by omega)]
      rw [weightedScore_symm]
    · rw [if_pos (show d1.length ≠ d2.length ∨ d1.length ≠ 8 by omega),
          if_pos (show d2.length ≠ d1.length ∨ d2.length ≠ 8 by omega)]
  · rw [if_pos (show d1.length ≠ d2.length ∨ d1.length ≠ 8 by omega),
        if_pos (show d2.length ≠ d1.length ∨ d2.length ≠ 8 by omega)]

theorem calculate_date_similarity_symm (x y : String) :
    calculate_date_similarity x y = calculate_date_similarity y x := by
  unfold calculate_date_similarity
  dsimp only
  by_cases hx : x = ""
  · by_cases hy : y = "" <;> simp [hx, hy]
  · by_cases hy : y = ""
    · simp [hx, hy]
    · rw [if_neg (show ¬(x = "" ∨ y = "") by simp [hx, hy]),
          if_neg (show ¬(y = "" ∨ x = "") by simp [hx, hy])]
      by_cases hn : normalize_date x = normalize_date y
      · rw [if_pos hn, if_pos hn.symm]
      · rw [if_neg hn,
            if_neg (show ¬(normalize_date y = normalize_date x) from fun h => hn h.symm)]
        by_cases h12 : ((normalize_date x).data.filter (fun c => c ≠ '-')).length
            = ((normalize_date y).data.filter (fun c => c ≠ '-')).length
        · by_cases h8 : ((normalize_date x).data.filter (fun c => c ≠ '-')).length = 8
          · rw [if_neg (show ¬(((normalize_date x).data.filter (fun c => c ≠ '-')).length
                  ≠ ((normalize_date y).data.filter (fun c => c ≠ '-')).length
                  ∨ ((normalize_date x).data.filter (fun c => c ≠ '-')).length ≠ 8) by omega),
                if_neg (show ¬(((normalize_date y).data.filter (fun c => c ≠ '-')).length
                  ≠ ((normalize_date x).data.filter (fun c => c ≠ '-')).length
                  ∨ ((normalize_date y).data.filter (fun c => c ≠ '-')).length ≠ 8) by omega)]
            exact calculate_digit_similarity_symm _ _
          · rw [if_pos (show ((normalize_date x).data.filter (fun c => c ≠ '-')).length
                  ≠ ((normalize_date y).data.filter (fun c => c ≠ '-')).length
                  ∨ ((normalize_date x).data.filter (fun c => c ≠ '-')).length ≠ 8 by omega),
                if_pos (show ((normalize_date y).data.filter (fun c => c ≠ '-')).length
                  ≠ ((normalize_date x).data.filter (fun c => c ≠ '-')).length
                  ∨ ((normalize_date y).data.filter (fun c => c ≠ '-')).length ≠ 8 by omega)]
        · rw [if_pos (show ((normalize_date x).data.filter (fun c => c ≠ '-')).length
                ≠ ((normalize_date y).data.filter (fun c => c ≠ '-')).length
                ∨ ((normalize_date x).data.filter (fun c => c ≠ '-')).length ≠ 8 by omega),
              if_pos (show ((normalize_date y).data.filter (fun c => c ≠ '-')).length
                ≠ ((normalize_date x).data.filter (fun c => c ≠ '-')).length
                ∨ ((normalize_date y).data.filter (fun c => c ≠ '-')).length ≠ 8 by omega)]

/-- C9, amended.  Date similarity is symmetric for all strings and reflexive
for all nonempty strings (`sim("","") = 0` is the single exception, see the
counterexample), and returns 0 whenever the normalized dates differ and the
hyphen-stripped digit strings are not both of length 8. -/
theorem c9_similarity_symmetric_reflexive_amended :
    (∀ d1 d2 : String, calculate_date_similarity d1 d2 = calculate_date_similarity d2 d1)
    ∧ (∀ d : String, d ≠ "" → calculate_date_similarity d d = pct 100)
    ∧ (∀ d1 d2 : String, normalize_date d1 ≠ normalize_date d2 →
        ¬(((normalize_date d1).data.filter (fun c => c ≠ '-')).length = 8
          ∧ ((normalize_date d2).data.filter (fun c => c ≠ '-')).length = 8) →
        calculate_date_similarity d1 d2 = pct 0) := by
  refine ⟨calculate_date_similarity_symm, ?_, ?_⟩
  · intro d hd
    unfold calculate_date_similarity
    rw [if_neg (by simp [hd]), if_pos rfl]
  · intro d1 d2 hn h8
    unfold calculate_date_similarity
    dsimp only
    by_cases hx : d1 = ""
    · rw [if_pos (Or.inl hx)]
    · by_cases hy : d2 = ""
      · rw [if_pos (Or.inr hy)]
      · rw [if_neg (show ¬(d1 = "" ∨ d2 = "") by simp [hx, hy]), if_neg hn]
        by_cases h12 : ((normalize_date d1).data.filter (fun c => c ≠ '-')).length
            = ((normalize_date d2).data.filter (fun c => c ≠ '-')).length
        · rw [if_pos (Or.inr (fun hc => h8 ⟨hc, h12 ▸ hc⟩))]
        · rw [if_pos (Or.inl h12)]

/-- C9 witness: symmetry applied at `("1990-01-15", "19")`, reflexivity at
the nonempty string `"1990-01-15"`, and the zero clause at `("abc",
"1990-01-15")`. -/
theorem c9_similarity_symmetric_reflexive_amended_witness :
    calculate_date_similarity "1990-01-15" "19" = calculate_date_similarity "19" "1990-01-15"
    ∧ calculate_date_similarity "1990-01-15" "1990-01-15" = pct 100
    ∧ calculate_date_similarity "abc" "1990-01-15" = pct 0 :=
  ⟨c9_similarity_symmetric_reflexive_amended.1 "1990-01-15" "19",
   c9_similarity_symmetric_reflexive_amended.2.1 "1990-01-15" (by decide),
   c9_similarity_symmetric_reflexive_amended.2.2 "abc" "1990-01-15"
     (by decide) (by decide)⟩

theorem drop_take_two_getD : ∀ (n : ℕ) (l : List Char), n + 2 ≤ l.length →
    (l.drop n).take 2 = [l.getD n ' ', l.getD (n + 1) ' '] := by
  intro n
  induction n with
  | zero =>
    intro l h
    match l, h with
    | a :: b :: t, _ => simp
  | succ n ih =>
    intro l h
    match l, h with
    | c :: t, h =>
      have ht : n + 2 ≤ t.length := by simp at h; omega
      simpa using ih t ht

/-- C8.  Characterisation of `extract_gender_from_codice_fiscale` (a total
function, hence never raising): MALE exactly when the identifier has at least
11 characters and the 0-indexed characters 9 and 10 (1-indexed positions
10–11) are ASCII digits forming a day value in 1..31; FEMALE exactly for a
day value in 41..71; undeterminable (`none`) in every other case — in
particular for short identifiers, non-numeric day fields, and day values
such as 0, 32..40 or 72..99. -/
theorem c8_extract_gender_characterisation (s : String) :
    (extract_gender_from_codice_fiscale s = some "MALE" ↔
      11 ≤ s.data.length
      ∧ isAsciiDigit (s.data.getD 9 ' ') = true
      ∧ isAsciiDigit (s.data.getD 10 ' ') = true
      ∧ 1 ≤ 10 * ((s.data.getD 9 ' ').toNat - 48) + ((s.data.getD 10 ' ').toNat - 48)
      ∧ 10 * ((s.data.getD 9 ' ').toNat - 48) + ((s.data.getD 10 ' ').toNat - 48) ≤ 31)
    ∧ (extract_gender_from_codice_fiscale s = some "FEMALE" ↔
      11 ≤ s.data.length
      ∧ isAsciiDigit (s.data.getD 9 ' ') = true
      ∧ isAsciiDigit (s.data.getD 10 ' ') = true
      ∧ 41 ≤ 10 * ((s.data.getD 9 ' ').toNat - 48) + ((s.data.getD 10 ' ').toNat - 48)
      ∧ 10 * ((s.data.getD 9 ' ').toNat - 48) + ((s.data.getD 10 ' ').toNat - 48) ≤ 71)
    ∧ (extract_gender_from_codice_fiscale s = none ↔
      ¬(11 ≤ s.data.length
        ∧ isAsciiDigit (s.data.getD 9 ' ') = true
        ∧ isAsciiDigit (s.data.getD 10 ' ') = true
        ∧ 1 ≤ 10 * ((s.data.getD 9 ' ').toNat - 48) + ((s.data.getD 10 ' ').toNat - 48)
        ∧ 10 * ((s.data.getD 9 ' ').toNat - 48) + ((s.data.getD 10 ' ').toNat - 48) ≤ 31)
      ∧ ¬(11 ≤ s.data.length
        ∧ isAsciiDigit (s.data.getD 9 ' ') = true
        ∧ isAsciiDigit (s.data.getD 10 ' ') = true
        ∧ 41 ≤ 10 * ((s.data.getD 9 ' ').toNat - 48) + ((s.data.getD 10 ' ').toNat - 48)
        ∧ 10 * ((s.data.getD 9 ' ').toNat - 48) + ((s.data.getD 10 ' ').toNat - 48) ≤ 71)) := by
  by_cases hlen : s.data.length < 11
  · have hval : extract_gender_from_codice_fiscale s = none := by
      unfold extract_gender_from_codice_fiscale
      rw [if_pos hlen]
    have hnot : ¬ 11 ≤ s.data.length := by omega
    rw [hval]
    refine ⟨⟨fun h => Option.noConfusion h, fun h => absurd h.1 hnot⟩,
            ⟨fun h => Option.noConfusion h, fun h => absurd h.1 hnot⟩,
            ⟨fun _ => ⟨fun h => hnot h.1, fun h => hnot h.1⟩, fun _ => rfl⟩⟩
  · have hge : 11 ≤ s.data.length := by omega
    have hslice : (s.data.drop 9).take 2 = [s.data.getD 9 ' ', s.data.getD 10 ' '] :=
      drop_take_two_getD 9 s.data (by omega)
    have hext : extract_gender_from_codice_fiscale s =
        (if isAsciiDigit (s.data.getD 9 ' ') && isAsciiDigit (s.data.getD 10 ' ') then
          (let day := digitsToNat [s.data.getD 9 ' ', s.data.getD 10 ' ']
           if 1 ≤ day && day ≤ 31 then some "MALE"
           else if 41 ≤ day && day ≤ 71 then some "FEMALE"
           else none)
        else none) := by
      unfold extract_gender_from_codice_fiscale
      rw [if_neg hlen, hslice]
      simp [List.all_cons]
    have hday : digitsToNat [s.data.getD 9 ' ', s.data.getD 10 ' ']
        = 10 * ((s.data.getD 9 ' ').toNat - 48) + ((s.data.getD 10 ' ').toNat - 48) := by
      unfold digitsToNat
      simp [List.foldl]
    rw [hday] at hext
    by_cases hd : (isAsciiDigit (s.data.getD 9 ' ') && isAsciiDigit (s.data.getD 10 ' ')) = true
    · rw [if_pos hd] at hext
      have hd9 : isAsciiDigit (s.data.getD 9 ' ') = true := by
        revert hd; cases isAsciiDigit (s.data.getD 9 ' ') <;> simp
      have hd10 : isAsciiDigit (s.data.getD 10 ' ') = true := by
        revert hd; cases isAsciiDigit (s.data.getD 10 ' ') <;> simp [Bool.and_comm]
      dsimp only at hext
      by_cases hm : (decide (1 ≤ 10 * ((s.data.getD 9 ' ').toNat - 48) + ((s.data.getD 10 ' ').toNat - 48))
          && decide (10 * ((s.data.getD 9 ' ').toNat - 48) + ((s.data.getD 10 ' ').toNat - 48) ≤ 31)) = true
      · rw [if_pos hm] at hext
        simp only [Bool.and_eq_true, decide_eq_true_eq] at hm
        rw [hext]
        refine ⟨⟨fun _ => ⟨hge, hd9, hd10, hm.1, hm.2⟩, fun _ => rfl⟩,
                ⟨fun h => absurd h (by decide), fun h => absurd h.2.2.2.1 (by omega)⟩,
                ⟨fun h => Option.noConfusion h, fun h => absurd ⟨hge, hd9, hd10, hm.1, hm.2⟩ h.1⟩⟩
      · rw [if_neg hm] at hext
        simp only [Bool.and_eq_true, decide_eq_true_eq, not_and_or, not_le] at hm
        by_cases hf : (decide (41 ≤ 10 * ((s.data.getD 9 ' ').toNat - 48) + ((s.data.getD 10 ' ').toNat - 48))
            && decide (10 * ((s.data.getD 9 ' ').toNat - 48) + ((s.data.getD 10 ' ').toNat - 48) ≤ 71)) = true
        · rw [if_pos hf] at hext
          simp only [Bool.and_eq_true, decide_eq_true_eq] at hf
          rw [hext]
          refine ⟨⟨fun h => absurd h (by decide), fun h => ?_⟩,
                  ⟨fun _ => ⟨hge, hd9, hd10, hf.1, hf.2⟩, fun _ => rfl⟩,
                  ⟨fun h => Option.noConfusion h, fun h => absurd ⟨hge, hd9, hd10, hf.1, hf.2⟩ h.2⟩⟩
          rcases hm with hm | hm
          · omega
          · exact absurd h.2.2.2.2 (by omega)
        · rw [if_neg hf] at hext
          simp only [Bool.and_eq_true, decide_eq_true_eq, not_and_or, not_le] at hf
          rw [hext]
          refine ⟨⟨fun h => Option.noConfusion h, fun h => ?_⟩,
                  ⟨fun h => Option.noConfusion h, fun h => ?_⟩,
                  ⟨fun _ => ⟨fun h => ?_, fun h => ?_⟩, fun _ => rfl⟩⟩
          · rcases hm with hm | hm
            · exact absurd h.2.2.2.1 (by omega)
            · exact absurd h.2.2.2.2 (by omega)
          · rcases hf with hf | hf
            · exact absurd h.2.2.2.1 (by omega)
            · exact absurd h.2.2.2.2 (by omega)
          · rcases hm with hm | hm
            · exact absurd h.2.2.2.1 (by omega)
            · exact absurd h.2.2.2.2 (by omega)
          · rcases hf with hf | hf
            · exact absurd h.2.2.2.1 (by omega)
            · exact absurd h.2.2.2.2 (by omega)
    · rw [if_neg hd] at hext
      rw [hext]
      have hnd : ¬(isAsciiDigit (s.data.getD 9 ' ') = true
          ∧ isAsciiDigit (s.data.getD 10 ' ') = true) := by
        intro hc
        exact hd (by rw [hc.1, hc.2]; rfl)
      refine ⟨⟨fun h => Option.noConfusion h, fun h => absurd ⟨h.2.1, h.2.2.1⟩ hnd⟩,
              ⟨fun h => Option.noConfusion h, fun h => absurd ⟨h.2.1, h.2.2.1⟩ hnd⟩,
              ⟨fun _ => ⟨fun h => hnd ⟨h.2.1, h.2.2.1⟩, fun h => hnd ⟨h.2.1, h.2.2.1⟩⟩,
               fun _ => rfl⟩⟩

theorem calculate_adjusted_eq_clamp (base : Flt) (c : Corrections) :
    calculate_adjusted_confidence base c = Flt.max (pct 0) (Flt.min (pct 100) base) := by
  rcases c with ⟨a, b, d, e, f⟩
  cases a <;> cases b <;> cases d <;> cases e <;> cases f <;> rfl

theorem clamp_id (x : Flt) (h0 : pct 0 ≤ x) (h1 : x ≤ pct 100) :
    Flt.max (pct 0) (Flt.min (pct 100) x) = x := by
  rcases x with ⟨n⟩
  have h0n : (0 : ℤ) ≤ n := by simpa [pct] using h0
  have h1n : n ≤ 400 := by simpa [pct] using h1
  by_cases hA : (400 : ℤ) ≤ n
  · have hn : n = 400 := by omega
    subst hn
    decide
  · by_cases hB : n ≤ 0
    · have hn : n = 0 := by omega
      subst hn
      decide
    · have hmin : Flt.min (pct 100) ⟨n⟩ = ⟨n⟩ := by
        unfold Flt.min
        rw [if_neg (show ¬((pct 100).n ≤ n) by simp only [pct]; omega)]
      rw [hmin]
      unfold Flt.max
      rw [if_neg (show ¬(n ≤ (pct 0).n) by simp only [pct]; omega)]

theorem evaluate_strategy_sel_none (dtx : PyDict) (lookup : String → Option PmsEntry)
    (keys : CompositeKeys) (strat : MatchingStrategy) (r : MatchResult)
    (hsel : select_match_key strat keys = none)
    (h : evaluate_strategy dtx lookup strat keys = .ok r) : r.match_found = false := by
  unfold evaluate_strategy at h
  rw [hsel] at h
  injection h with h
  rw [← h]
  rfl

theorem evaluate_strategy_ok_found (dtx : PyDict) (lookup : String → Option PmsEntry)
    (keys : CompositeKeys) (strat : MatchingStrategy) (k : String) (mt : MatchType)
    (hsel : select_match_key strat keys = some k)
    (hmt : matchTypeOfName strat.name = some mt)
    (hth : confidence_thresholds mt = strat.confidence)
    (hlo : pct 0 ≤ strat.confidence) (hhi : strat.confidence ≤ pct 100)
    (r : MatchResult)
    (h : evaluate_strategy dtx lookup strat keys = .ok r)
    (hf : r.match_found = true) :
    r.confidence_score = confidence_thresholds r.match_type
    ∧ pct 0 ≤ r.confidence_score ∧ r.confidence_score ≤ pct 100 := by
  unfold evaluate_strategy at h
  rw [hsel] at h
  try dsimp only at h
  by_cases hk : k = ""
  · rw [if_pos hk] at h
    injection h with h
    rw [← h] at hf
    exact absurd hf (by decide)
  · rw [if_neg hk] at h
    cases hlk : lookup k with
    | none =>
      rw [hlk] at h
      injection h with h
      rw [← h] at hf
      exact absurd hf (by decide)
    | some entry =>
      rw [hlk] at h
      try dsimp only at h
      cases hfc : firstCandidate entry with
      | error e =>
        rw [hfc] at h
        simp only [bind, Except.bind] at h
        cases h
      | ok pms =>
        rw [hfc] at h
        simp only [bind, Except.bind] at h
        try dsimp only at h
        cases hcp : constructPatientRecord pms with
        | error e =>
          rw [hcp] at h
          cases h
        | ok pat =>
          rw [hcp] at h
          rw [hmt] at h
          try dsimp only at h
          injection h with h
          rw [← h]
          have hconf : calculate_adjusted_confidence strat.confidence
              (identify_corrections dtx pms strat) = strat.confidence :=
            (calculate_adjusted_eq_clamp _ _).trans (clamp_id _ hlo hhi)
          refine ⟨?_, ?_, ?_⟩
          · show calculate_adjusted_confidence strat.confidence
              (identify_corrections dtx pms strat) = confidence_thresholds mt
            rw [hconf, hth]
          · show pct 0 ≤ calculate_adjusted_confidence strat.confidence
              (identify_corrections dtx pms strat)
            rw [hconf]; exact hlo
          · show calculate_adjusted_confidence strat.confidence
              (identify_corrections dtx pms strat) ≤ pct 100
            rw [hconf]; exact hhi

theorem strategies_found_confidence (dtx : PyDict) (lookup : String → Option PmsEntry)
    (keys : CompositeKeys) (strat : MatchingStrategy) (hmem : strat ∈ strategies)
    (r : MatchResult)
    (h : evaluate_strategy dtx lookup strat keys = .ok r)
    (hf : r.match_found = true) :
    r.confidence_score = confidence_thresholds r.match_type
    ∧ pct 0 ≤ r.confidence_score ∧ r.confidence_score ≤ pct 100 := by
  fin_cases hmem
  · exact evaluate_strategy_ok_found dtx lookup keys _ keys.exact .goldStandard
      (by rfl) (by rfl) (by rfl) (by decide) (by decide) r h hf
  · exact evaluate_strategy_ok_found dtx lookup keys _ keys.loose .exactGenderLoose
      (by rfl) (by rfl) (by rfl) (by decide) (by decide) r h hf
  · exact evaluate_strategy_ok_found dtx lookup keys _ keys.flipped_exact .flippedExact
      (by rfl) (by rfl) (by rfl) (by decide) (by decide) r h hf
  · exact evaluate_strategy_ok_found dtx lookup keys _ keys.flipped_loose .flippedGenderLoose
      (by rfl) (by rfl) (by rfl) (by decide) (by decide) r h hf
  · exact absurd ((evaluate_strategy_sel_none dtx lookup keys _ r (by rfl) h) ▸ hf) (by decide)
  · exact absurd ((evaluate_strategy_sel_none dtx lookup keys _ r (by rfl) h) ▸ hf) (by decide)
  · exact evaluate_strategy_ok_found dtx lookup keys _ keys.name_only .exactFuzzyDob
      (by rfl) (by rfl) (by rfl) (by decide) (by decide) r h hf
  · exact evaluate_strategy_ok_found dtx lookup keys _ keys.flipped_loose .flippedFuzzyDob
      (by rfl) (by rfl) (by rfl) (by decide) (by decide) r h hf
  · exact absurd ((evaluate_strategy_sel_none dtx lookup keys _ r (by rfl) h) ▸ hf) (by decide)

theorem tryStrategies_found_confidence (dtx : PyDict) (lookup : String → Option PmsEntry)
    (keys : CompositeKeys) :
    ∀ (l : List MatchingStrategy), (∀ strat ∈ l, strat ∈ strategies) →
    ∀ (s s' : SessionStatistics) (r : MatchResult),
    tryStrategies dtx lookup keys l s = (s', .ok r) → r.match_found = true →
    r.confidence_score = confidence_thresholds r.match_type
    ∧ pct 0 ≤ r.confidence_score ∧ r.confidence_score ≤ pct 100 := by
  intro l
  induction l with
  | nil =>
    intro _ s s' r h hf
    unfold tryStrategies at h
    injection h with h1 h2
    injection h2 with h2
    rw [← h2] at hf
    exact absurd hf (by decide)
  | cons strat rest ih =>
    intro hsub s s' r h hf
    unfold tryStrategies at h
    cases heval : evaluate_strategy dtx lookup strat keys with
    | error e =>
      rw [heval] at h
      try dsimp only at h
      injection h with h1 h2
      cases h2
    | ok r0 =>
      rw [heval] at h
      try dsimp only at h
      by_cases hf0 : r0.match_found = true
      · rw [if_pos hf0] at h
        injection h with h1 h2
        injection h2 with h2
        rw [← h2]
        exact strategies_found_confidence dtx lookup keys strat
          (hsub strat (List.mem_cons_self strat rest)) r0 heval hf0
      · rw [if_neg hf0] at h
        exact ih (fun q hq => hsub q (List.mem_cons_of_mem strat hq)) s s' r h hf

/-- C3, amended.  For every `MatchResult` with `match_found = true` produced
by `match_patient`, the confidence score equals the strategy's base
confidence unchanged — the correction deltas are never applied because the
corrections dict uses `is_`-prefixed keys that do not occur in
`correction_factors` — and therefore trivially never exceeds the base and
always lies in [0, 1]. -/
theorem c3_confidence_equals_base (dtx : PyDict) (lookup : String → Option PmsEntry)
    (s s' : SessionStatistics) (r : MatchResult)
    (h : match_patient dtx lookup s = (s', .ok r)) (hf : r.match_found = true) :
    r.confidence_score = confidence_thresholds r.match_type
    ∧ pct 0 ≤ r.confidence_score ∧ r.confidence_score ≤ pct 100 := by
  unfold match_patient at h
  exact tryStrategies_found_confidence dtx lookup _ strategies (fun _ hq => hq) _ s' r h hf

/-- C3 witness: the amended theorem applied to the flipped-name scenario. -/
theorem c3_confidence_equals_base_witness :
    flipExpected.confidence_score = confidence_thresholds flipExpected.match_type
    ∧ pct 0 ≤ flipExpected.confidence_score ∧ flipExpected.confidence_score ≤ pct 100 :=
  c3_confidence_equals_base flipDtx flipLookup freshSessionStatistics
    ⟨1, 1, 0, 0, 0, 1, 0, 0, 0, 0, 1, 0, 0⟩ flipExpected (by decide) (by decide)

/-- C3 counterexample.  A flipped-name match: the only correction flag set is
`name_flip`, so the claim predicts `clamp(0.97 − 0.02) = 0.95`, but the
returned confidence is the unadjusted base `0.97`. -/
theorem c3_deltas_not_applied :
    (match_patient flipDtx flipLookup freshSessionStatistics).2 = .ok flipExpected
    ∧ flipExpected.match_found = true
    ∧ flipExpected.is_name_flip = true
    ∧ flipExpected.is_gender_mismatch = false
    ∧ flipExpected.is_date_correction = false
    ∧ flipExpected.is_partial_match = false
    ∧ flipExpected.is_pms_gender_error = false
    ∧ Flt.max (pct 0) (Flt.min (pct 100)
        (confidence_thresholds flipExpected.match_type + pct (-2))) = pct 95
    ∧ flipExpected.confidence_score = pct 97
    ∧ flipExpected.confidence_score
        ≠ Flt.max (pct 0) (Flt.min (pct 100)
            (confidence_thresholds flipExpected.match_type + pct (-2))) := by
  decide

theorem updateOutcomeCounters_spec (r : MatchResult) (s : SessionStatistics) :
    (updateOutcomeCounters r s).total_processed = s.total_processed
    ∧ (updateOutcomeCounters r s).no_matches = s.no_matches
    ∧ (updateOutcomeCounters r s).auto_matched + (updateOutcomeCounters r s).manual_review_required
        = s.auto_matched + s.manual_review_required + 1 := by
  unfold updateOutcomeCounters
  by_cases hrev : r.requires_manual_review = true
  · rw [if_pos hrev]
    refine ⟨rfl, rfl, ?_⟩
    show s.auto_matched + (s.manual_review_required + 1)
      = s.auto_matched + s.manual_review_required + 1
    omega
  · rw [if_neg hrev]
    refine ⟨rfl, rfl, ?_⟩
    show (s.auto_matched + 1) + s.manual_review_required
      = s.auto_matched + s.manual_review_required + 1
    omega

theorem updateLevelCounters_pres (r : MatchResult) (s : SessionStatistics) :
    (updateLevelCounters r s).total_processed = s.total_processed
    ∧ (updateLevelCounters r s).no_matches = s.no_matches
    ∧ (updateLevelCounters r s).auto_matched = s.auto_matched
    ∧ (updateLevelCounters r s).manual_review_required = s.manual_review_required := by
  unfold updateLevelCounters
  cases get_confidence_level r.confidence_score <;> exact ⟨rfl, rfl, rfl, rfl⟩

theorem updateCorrectionCounters_pres (r : MatchResult) (s : SessionStatistics) :
    (updateCorrectionCounters r s).total_processed = s.total_processed
    ∧ (updateCorrectionCounters r s).no_matches = s.no_matches
    ∧ (updateCorrectionCounters r s).auto_matched = s.auto_matched
    ∧ (updateCorrectionCounters r s).manual_review_required = s.manual_review_required := by
  unfold updateCorrectionCounters
  repeat' split
  all_goals exact ⟨rfl, rfl, rfl, rfl⟩

theorem update_session_stats_counters (r : MatchResult) (s : SessionStatistics) :
    (update_session_stats r s).total_processed = s.total_processed
    ∧ (update_session_stats r s).no_matches = s.no_matches
    ∧ (update_session_stats r s).auto_matched + (update_session_stats r s).manual_review_required
        = s.auto_matched + s.manual_review_required + 1 := by
  unfold update_session_stats
  have h1 := updateOutcomeCounters_spec r s
  have h2 := updateLevelCounters_pres r (updateOutcomeCounters r s)
  have h3 := updateCorrectionCounters_pres r (updateLevelCounters r (updateOutcomeCounters r s))
  refine ⟨?_, ?_, ?_⟩
  · rw [h3.1, h2.1, h1.1]
  · rw [h3.2.1, h2.2.1, h1.2.1]
  · rw [h3.2.2.1, h2.2.2.1, h3.2.2.2, h2.2.2.2]
    exact h1.2.2

theorem tryStrategies_counters (dtx : PyDict) (lookup : String → Option PmsEntry)
    (keys : CompositeKeys) :
    ∀ (l : List MatchingStrategy) (s s' : SessionStatistics) (res : Except PyErr MatchResult),
    tryStrategies dtx lookup keys l s = (s', res) →
    s'.total_processed = s.total_processed
    ∧ (∀ r, res = .ok r →
        s'.auto_matched + s'.manual_review_required + s'.no_matches
          = s.auto_matched + s.manual_review_required + s.no_matches + 1) := by
  intro l
  induction l with
  | nil =>
    intro s s' res h
    unfold tryStrategies at h
    injection h with h1 h2
    rw [← h1]
    exact ⟨rfl, fun r _ => by simp only; omega⟩
  | cons strat rest ih =>
    intro s s' res h
    unfold tryStrategies at h
    cases heval : evaluate_strategy dtx lookup strat keys with
    | error e =>
      rw [heval] at h
      try dsimp only at h
      injection h with h1 h2
      rw [← h1]
      refine ⟨rfl, fun r hr => ?_⟩
      rw [← h2] at hr
      cases hr
    | ok r0 =>
      rw [heval] at h
      try dsimp only at h
      by_cases hf0 : r0.match_found = true
      · rw [if_pos hf0] at h
        injection h with h1 h2
        rw [← h1]
        have hu := update_session_stats_counters r0 s
        exact ⟨hu.1, fun r _ => by omega⟩
      · rw [if_neg hf0] at h
        exact ih s s' res h

/-- C10, amended.  Every call of `match_patient` increments `total_processed`
by exactly one, and after every call that returns a result (rather than
raising) the invariant `total_processed = auto_matched +
manual_review_required + no_matches` is preserved; a call that raises
increments `total_processed` without counting an outcome (see the
counterexample). -/
theorem c10_stats_invariant (dtx : PyDict) (lookup : String → Option PmsEntry)
    (s : SessionStatistics) :
    ((match_patient dtx lookup s).1.total_processed = s.total_processed + 1)
    ∧ (∀ r, (match_patient dtx lookup s).2 = .ok r →
        s.total_processed = s.auto_matched + s.manual_review_required + s.no_matches →
        (match_patient dtx lookup s).1.total_processed
          = (match_patient dtx lookup s).1.auto_matched
            + (match_patient dtx lookup s).1.manual_review_required
            + (match_patient dtx lookup s).1.no_matches) := by
  cases hmp : match_patient dtx lookup s with
  | mk s' res =>
    unfold match_patient at hmp
    have hc := tryStrategies_counters dtx lookup
      (create_composite_keys (dictGet dtx "family_name" "") (dictGet dtx "given_name" "")
        (dictGet dtx "sex" "") (dictGet dtx "dob" ""))
      strategies { s with total_processed := s.total_processed + 1 } s' res hmp
    refine ⟨hc.1, fun r hr hinv => ?_⟩
    have hsum := hc.2 r hr
    simp only at hsum hc
    rw [hc.1]
    simp only
    omega

/-- C10 witness: the amended theorem applied to the Scenario C no-match run
starting from fresh statistics. -/
theorem c10_stats_invariant_witness :
    ((match_patient scenarioCDtx rossiLookup freshSessionStatistics).1.total_processed
      = freshSessionStatistics.total_processed + 1)
    ∧ (match_patient scenarioCDtx rossiLookup freshSessionStatistics).1.total_processed
      = (match_patient scenarioCDtx rossiLookup freshSessionStatistics).1.auto_matched
        + (match_patient scenarioCDtx rossiLookup freshSessionStatistics).1.manual_review_required
        + (match_patient scenarioCDtx rossiLookup freshSessionStatistics).1.no_matches :=
  ⟨(c10_stats_invariant scenarioCDtx rossiLookup freshSessionStatistics).1,
   (c10_stats_invariant scenarioCDtx rossiLookup freshSessionStatistics).2 finalNoMatch
     (by decide) (by decide)⟩

end DtxPatientInfo
